import Mathlib

/-!
Shallow embedding of the investment-advisor backend
(`backend/app/models.py`, `backend/app/cache.py`,
`backend/app/workflow_agent.py`, `backend/app/main.py`) and proofs about it.

Modelling conventions:
* Python `float` values are modelled as `ℚ`; `Optional[float]` as `Option ℚ`.
* Wall-clock instants (`datetime.now()`) are passed explicitly as a `ℚ`
  measured in days, so that `datetime.now() - cached_at > timedelta(days=ttl_days)`
  becomes `now - cached_at > ttl`.
* Fallible Python code is embedded in `Except PyErr`; an uncaught exception is
  an `Except.error`.
* A JSON document (the result of `json.loads`) is the inductive `Json` below;
  `json.dumps` / `json.loads` round-trip on such documents is the identity, so
  the cache stores payload values directly.
-/

namespace App

/-- Python exception values that the embedded code can raise. -/
inductive PyErr where
  /-- Embeds `KeyError(k)` from a `dict[k]` access with a missing key. -/
  | keyError (k : String)
  /-- Embeds `TypeError` (e.g. `float(None)`). -/
  | typeError
  /-- pydantic `ValidationError` on a model field. -/
  | validationError (field : String)
  /-- A failure raised by an external provider call. -/
  | providerError (msg : String)
deriving DecidableEq, Repr

/-- Embeds `RiskAppetite` from `models.py`. -/
inductive RiskAppetite where
  | LOW
  | MEDIUM
  | HIGH
deriving DecidableEq, Repr

/-- Embeds `TimeHorizon` from `models.py`. -/
inductive TimeHorizon where
  | SHORT_TERM
  | MEDIUM_TERM
  | LONG_TERM
deriving DecidableEq, Repr

/-- Embeds `Action` from `models.py`: possible actions for investment decisions. -/
inductive Action where
  | BUY
  | NOT_BUY
deriving DecidableEq, Repr

/-- The string value of each `Action` enum member. -/
def Action.value : Action → String
  | .BUY => "Buy"
  | .NOT_BUY => "Not Buy"

/-- Embeds `InvestmentResponse` from `models.py`. -/
structure InvestmentResponse where
  suggested_action : Action
  reasoning : String
deriving DecidableEq, Repr

/-- Embeds `SummarizedSearchResult` from `models.py`. -/
structure SummarizedSearchResult where
  title : String
  url : String
deriving DecidableEq, Repr

/-- Embeds `SummaryResponse` from `models.py`. -/
structure SummaryResponse where
  summary : String
  sources : List SummarizedSearchResult
deriving DecidableEq, Repr

/-- Embeds `WebSearchResult` from `models.py` (field order as declared there). -/
structure WebSearchResult where
  title : String
  content : String
  url : String
deriving DecidableEq, Repr

/-- Embeds `Overview` from `models.py`: every numeric field is `Optional[float]`. -/
structure Overview where
  description : String
  market_capitalization : Option ℚ
  pe_ratio : Option ℚ
  peg_ratio : Option ℚ
  book_value : Option ℚ
  dividend_yield : Option ℚ
  dividend_per_share : Option ℚ
  eps : Option ℚ
  beta : Option ℚ
  sector : String
  industry : String
deriving DecidableEq, Repr

/-- The override dictionary built by the guardrail node
(`workflow_agent.py` line 229): keys `suggested_action` and `reason`. -/
structure GuardrailOverride where
  suggested_action : Action
  reason : String
deriving DecidableEq, Repr

/-- Embeds `ServiceResponse` from `models.py`, as shaped by the endpoint. -/
structure ServiceResponse where
  suggested_action : Action
  reasoning : String
  sources : Option (List SummarizedSearchResult)
  guardrail_override : Option GuardrailOverride
deriving DecidableEq, Repr

/-! ## The TTL cache (`cache.py`, class `OverviewCache`)

The SQLite table `overview_cache (ticker_symbol TEXT PRIMARY KEY, data TEXT
NOT NULL, cached_at TIMESTAMP NOT NULL)` is modelled as an association list
from the ticker symbol to the payload and the write instant.  Payloads are
kept at an arbitrary type `α` (the code stores `json.dumps data` and returns
`json.loads data_json`, an identity round-trip on JSON documents). -/

/-- Python `str.upper()` on the ASCII ticker symbols in scope: upper-case
every character.  (Defined by a plain character map rather than
`String.toUpper` so that concrete instances reduce inside the kernel.) -/
def pyUpper (s : String) : String := String.mk (s.data.map Char.toUpper)

/-- One row of the `overview_cache` table per key: payload and `cached_at`. -/
abbrev CacheStore (α : Type) : Type := List (String × α × ℚ)

namespace OverviewCache

/-- The default of the `ttl_days` argument of `OverviewCache.__init__`. -/
def default_ttl_days : ℚ := 7

/-- Embeds `OverviewCache.get` (`cache.py` lines 39-72): looks up the upper-cased
key; on a hit older than `ttl` days, deletes the row and reports a miss.
Returns the result together with the store after the side effect. -/
def get {α : Type} (store : CacheStore α) (ttl : ℚ) (now : ℚ)
    (ticker_symbol : String) : Option α × CacheStore α :=
  match List.lookup (pyUpper ticker_symbol) store with
  | none => (none, store)
  | some (data, cached_at) =>
      if now - cached_at > ttl then
        (none, store.filter (fun row => row.1 ≠ (pyUpper ticker_symbol)))
      else
        (some data, store)

/-- Embeds `OverviewCache.set` (`cache.py` lines 74-90): `INSERT OR REPLACE` keyed
by the upper-cased symbol, with `cached_at = now`. -/
def set {α : Type} (store : CacheStore α) (ticker_symbol : String) (data : α)
    (now : ℚ) : CacheStore α :=
  ((pyUpper ticker_symbol), data, now) ::
    store.filter (fun row => row.1 ≠ (pyUpper ticker_symbol))

/-- Embeds `OverviewCache.clear` (`cache.py` lines 92-108): deletes one key
(upper-cased) or, given `none`, every row. -/
def clear {α : Type} (store : CacheStore α) (ticker_symbol : Option String) :
    CacheStore α :=
  match ticker_symbol with
  | some k => store.filter (fun row => row.1 ≠ (pyUpper k))
  | none => []

/-- Embeds `OverviewCache.cleanup_expired` (`cache.py` lines 110-118): bulk-deletes
rows with `cached_at < now - ttl`. -/
def cleanup_expired {α : Type} (store : CacheStore α) (ttl : ℚ) (now : ℚ) :
    CacheStore α :=
  store.filter (fun row => ¬ row.2.2 < now - ttl)

/-- Number of live rows whose primary key is `k`. -/
def countKey {α : Type} (store : CacheStore α) (k : String) : ℕ :=
  (store.filter (fun row => row.1 = k)).length

end OverviewCache

/-! ## JSON documents and Python's numeric conversions -/

/-- A JSON document as produced by `json.loads`. -/
inductive Json where
  | null
  | bool (b : Bool)
  | num (q : ℚ)
  | str (s : String)
  | arr (elems : List Json)
  | obj (fields : List (String × Json))

/-- Python truthiness of a JSON value: `None`, `False`, `0`, `""`, `[]` and
`{}` are falsy, everything else is truthy. -/
def Json.truthy : Json → Bool
  | .null => false
  | .bool b => b
  | .num q => q ≠ 0
  | .str s => s ≠ ""
  | .arr elems => !elems.isEmpty
  | .obj fields => !fields.isEmpty

/-- Key lookup in a JSON object (`None` on a non-object or a missing key). -/
def Json.lookup (j : Json) (k : String) : Option Json :=
  match j with
  | .obj fields => List.lookup k fields
  | _ => none

/-- Embeds `response[k]` on a JSON object: raises `KeyError(k)` when absent. -/
def dictGet (j : Json) (k : String) : Except PyErr Json :=
  match j.lookup k with
  | some v => .ok v
  | none => .error (.keyError k)

/-- Value of a digit string read in base 10. -/
def digitsVal (cs : List Char) : ℕ :=
  cs.foldl (fun acc c => acc * 10 + (c.toNat - 48)) 0

/-- Does every character of the list denote a decimal digit? -/
def allDigits (cs : List Char) : Bool :=
  cs.all (fun c => c.isDigit)

/-- The mantissa of a decimal literal: digits with at most one point,
at least one digit overall (`"5"`, `"5."`, `".5"`, `"1.25"`). -/
def parseMantissa (cs : List Char) : Option ℚ :=
  match cs.splitOn '.' with
  | [intPart] =>
      if intPart ≠ [] ∧ allDigits intPart then some (digitsVal intPart) else none
  | [intPart, fracPart] =>
      if (intPart ≠ [] ∨ fracPart ≠ []) ∧ allDigits intPart ∧ allDigits fracPart
      then some ((digitsVal intPart : ℚ) +
        (digitsVal fracPart : ℚ) / ((10 : ℚ) ^ fracPart.length))
      else none
  | _ => none

/-- An optional leading sign; returns the sign as `1` or `-1`. -/
def splitSign (cs : List Char) : ℚ × List Char :=
  match cs with
  | '-' :: rest => (-1, rest)
  | '+' :: rest => (1, rest)
  | _ => (1, cs)

/-- A signed decimal integer (used for the exponent part). -/
def parseSignedInt (cs : List Char) : Option ℤ :=
  let (sign, body) := splitSign cs
  if body ≠ [] ∧ allDigits body then some (if sign = 1 then (digitsVal body : ℤ)
    else -(digitsVal body : ℤ)) else none

/-- Embeds `float(s)` on a decimal literal, mirroring Python's grammar
`[sign] (digits [. digits] | . digits) [(e|E) [sign] digits]`
(whitespace, underscores and the `inf` / `nan` spellings are not used by the
payloads in scope).  `none` means `float` raises `ValueError`. -/
def parseFloat (s : String) : Option ℚ :=
  let (sign, body) := splitSign s.toList
  match body.splitOn 'e' with
  | [mant] =>
      (match mant.splitOn 'E' with
       | [m] => (parseMantissa m).map (fun q => sign * q)
       | [m, ex] => do
           let q ← parseMantissa m
           let e ← parseSignedInt ex
           pure (sign * q * (10 : ℚ) ^ e)
       | _ => none)
  | [mant, ex] =>
      if mant.contains 'E' ∨ ex.contains 'E' then none
      else do
        let q ← parseMantissa mant
        let e ← parseSignedInt ex
        pure (sign * q * (10 : ℚ) ^ e)
  | _ => none

/-- Python `float(value)` applied to a JSON value: numbers and booleans
convert, strings go through the decimal grammar (`ValueError` when they do
not parse), anything else raises `TypeError`. -/
def pyFloat (v : Json) : Except PyErr ℚ :=
  match v with
  | .num q => .ok q
  | .bool b => .ok (if b then 1 else 0)
  | .str s =>
      match parseFloat s with
      | some q => .ok q
      | none => .error (.validationError "ValueError")
  | _ => .error .typeError

/-- Python `value == 'None'` for a JSON value: true exactly on the string
`"None"`. -/
def Json.isNoneStr : Json → Bool
  | .str s => s = "None"
  | _ => false

/-- Embeds `maybe_float_from_str` (`workflow_agent.py` lines 248-254): the sentinel
string `"None"` maps to `None`; otherwise `float(value)` is attempted and
both `ValueError` and `TypeError` are caught, yielding `None`. -/
def maybe_float_from_str (value : Json) : Option ℚ :=
  if value.isNoneStr then none
  else
    match pyFloat value with
    | .ok q => some q
    | .error _ => none

/-! ## The fundamentals-fetch node
(`workflow_agent.py`, `get_overview_indicators`, lines 170-200) -/

/-- pydantic validation of a `str` field: accepts exactly JSON strings. -/
def asStr (field : String) (v : Json) : Except PyErr String :=
  match v with
  | .str s => .ok s
  | _ => .error (.validationError field)

/-- The `Overview(...)` construction of `get_overview_indicators`
(lines 187-199): each field value is read with `response[key]` — `KeyError`
when the key is absent, in the source's argument order — the numeric fields
go through `maybe_float_from_str`, and pydantic requires `description`,
`sector` and `industry` to be strings. -/
def parseOverview (response : Json) : Except PyErr Overview := do
  let descriptionV ← dictGet response "Description"
  let marketCapV ← dictGet response "MarketCapitalization"
  let peRatioV ← dictGet response "PERatio"
  let pegRatioV ← dictGet response "PEGRatio"
  let bookValueV ← dictGet response "BookValue"
  let dividendYieldV ← dictGet response "DividendYield"
  let dividendPerShareV ← dictGet response "DividendPerShare"
  let epsV ← dictGet response "EPS"
  let betaV ← dictGet response "Beta"
  let sectorV ← dictGet response "Sector"
  let industryV ← dictGet response "Industry"
  let description ← asStr "description" descriptionV
  let sector ← asStr "sector" sectorV
  let industry ← asStr "industry" industryV
  pure {
    description := description
    market_capitalization := maybe_float_from_str marketCapV
    pe_ratio := maybe_float_from_str peRatioV
    peg_ratio := maybe_float_from_str pegRatioV
    book_value := maybe_float_from_str bookValueV
    dividend_yield := maybe_float_from_str dividendYieldV
    dividend_per_share := maybe_float_from_str dividendPerShareV
    eps := maybe_float_from_str epsV
    beta := maybe_float_from_str betaV
    sector := sector
    industry := industry }

/-- Embeds `get_overview_indicators` (lines 170-200).  `provider` is the outcome of
`json.loads(await self.overview_tool.ainvoke(...))` — the external
fundamentals call.  The cached payload is used only when truthy
(`if cached_data:`); otherwise the provider is invoked and its payload is
written to the cache before parsing.  The returned store reflects every
write that happened before a parse failure. -/
def get_overview_indicators (store : CacheStore Json) (ttl : ℚ) (now : ℚ)
    (symbol : String) (provider : Except PyErr Json) :
    Except PyErr Overview × CacheStore Json :=
  let cacheHit := OverviewCache.get store ttl now symbol
  match cacheHit.1 with
  | some cached =>
      if cached.truthy then
        (parseOverview cached, cacheHit.2)
      else
        match provider with
        | .error e => (.error e, cacheHit.2)
        | .ok response =>
            (parseOverview response, OverviewCache.set cacheHit.2 symbol response now)
  | none =>
      match provider with
      | .error e => (.error e, cacheHit.2)
      | .ok response =>
          (parseOverview response, OverviewCache.set cacheHit.2 symbol response now)

/-! ## The guardrail node
(`workflow_agent.py`, `risk_appetite_beta_guardrail`, lines 202-231) -/

/-- The `failed` expression of line 204, with Python truthiness:
`state['response'].suggested_action == Action.BUY and
state['risk_appetite'] in [RiskAppetite.LOW] and
state['overview'].beta and state['overview'].beta > 1.0`.
A `beta` of `None` — and also `0.0`, which is falsy — short-circuits the
conjunction. -/
def guardrail_failed (suggested_action : Action) (risk_appetite : RiskAppetite)
    (beta : Option ℚ) : Bool :=
  decide (suggested_action = Action.BUY) &&
    decide (risk_appetite ∈ ([RiskAppetite.LOW] : List RiskAppetite)) &&
    (match beta with
     | none => false
     | some b => decide (b ≠ 0) && decide (b > 1))

/-- Embeds `failure_reason` of line 205. -/
def failure_reason : String := "High beta stock not suitable for low risk appetite"

/-- Embeds `risk_appetite_beta_guardrail` (lines 202-231).  `auditCall` is the
outcome of `self.opik_client.rest_client.guardrails.create_guardrails(...)`,
the write of the audit record to the observability sink; lines 224-227 wrap
it in `try/except Exception`, so either outcome is swallowed.  The node
returns the state patch: the override dictionary when the rule fired, the
empty patch otherwise. -/
def risk_appetite_beta_guardrail (auditCall : Except PyErr Unit)
    (response : InvestmentResponse) (risk_appetite : RiskAppetite)
    (overview : Overview) : Except PyErr (Option GuardrailOverride) :=
  let failed := guardrail_failed response.suggested_action risk_appetite overview.beta
  let _swallowed : Unit :=
    match auditCall with
    | .ok _ => ()
    | .error _ => ()
  if failed then
    .ok (some { suggested_action := Action.NOT_BUY, reason := failure_reason })
  else
    .ok none

/-- The effective action of a run: the override's action when the guardrail
produced one, the recommendation's own action otherwise. -/
def effective_action (response : InvestmentResponse)
    (patch : Option GuardrailOverride) : Action :=
  match patch with
  | some ov => ov.suggested_action
  | none => response.suggested_action

/-! ## The news-fetch node (`workflow_agent.py`, `recent_news`, lines 146-156) -/

/-- One raw result dictionary from the Tavily search response. -/
structure TavilyResult where
  title : String
  url : String
  content : String
deriving DecidableEq, Repr

/-- The `max_results` configuration of the `TavilySearch` client built in
`WorkflowAgent.__init__` (lines 27-33). -/
def tavily_max_results : ℕ := 10

/-- Modelled from the spec: the Tavily search provider itself is an external
collaborator whose code is not in this repository; per §4.4 its result list
is "capped at a fixed result count", i.e. the client configured with
`max_results` returns at most that many results, in provider order.
`provider` is the unbounded underlying result stream for each query. -/
def tavily_invoke (max_results : ℕ) (provider : String → List TavilyResult)
    (query : String) : List TavilyResult :=
  (provider query).take max_results

/-- The f-string `f"Recent news about {state['ticker_symbol']} stock"`
of line 147. -/
def recent_news_query (ticker_symbol : String) : String :=
  "Recent news about " ++ ticker_symbol ++ " stock"

/-- Embeds `recent_news` (lines 146-156): issues the single search query and maps
each raw result into a `WebSearchResult`, in order.  The first component
records the queries issued (the body performs exactly one `invoke`). -/
def recent_news (provider : String → List TavilyResult)
    (ticker_symbol : String) : List String × List WebSearchResult :=
  let search_query := recent_news_query ticker_symbol
  let results := tavily_invoke tavily_max_results provider search_query
  ([search_query],
    results.map (fun r => { title := r.title, url := r.url, content := r.content }))

/-! ## The workflow state schema and the HTTP endpoint
(`models.py` `AdvisorState`, `main.py` `generate_strategy`) -/

/-- The keys declared by the `AdvisorState` `TypedDict`
(`models.py` lines 90-99). -/
def advisorStateKeys : List String :=
  ["ticker_symbol", "risk_appetite", "time_horizon", "recent_news_results",
   "recent_news_summary_result", "overview", "response", "guardrails_override",
   "trace_id"]

/-- A value stored in the workflow result dictionary (only the shapes the
endpoint reads). -/
inductive StateVal where
  | respV (r : InvestmentResponse)
  | summaryV (s : SummaryResponse)
  | overrideV (o : GuardrailOverride)
  | otherV
deriving DecidableEq, Repr

/-- The literal state patch returned by the guardrail node (lines 228-231):
`{'guardrail_override': {...}}` when the rule fired, `{}` otherwise. -/
def guardrail_patch (patch : Option GuardrailOverride) : List (String × StateVal) :=
  match patch with
  | some ov => [("guardrail_override", StateVal.overrideV ov)]
  | none => []

/-- Embeds `workflow_result[k]` in the endpoint: `KeyError` when absent. -/
def pyDictGet (wr : List (String × StateVal)) (k : String) : Except PyErr StateVal :=
  match List.lookup k wr with
  | some v => .ok v
  | none => .error (.keyError k)

/-- The state value under `response` must be an `InvestmentResponse`. -/
def asInvestmentResponse (v : StateVal) : Except PyErr InvestmentResponse :=
  match v with
  | .respV r => .ok r
  | _ => .error .typeError

/-- The state value under `recent_news_summary_result` must be a
`SummaryResponse`. -/
def asSummaryResponse (v : StateVal) : Except PyErr SummaryResponse :=
  match v with
  | .summaryV s => .ok s
  | _ => .error .typeError

/-- pydantic validation of the `guardrail_override` field of
`ServiceResponse`. -/
def asOverride (v : StateVal) : Except PyErr GuardrailOverride :=
  match v with
  | .overrideV o => .ok o
  | _ => .error (.validationError "guardrail_override")

/-- The response shaping of `generate_strategy` (`main.py` lines 110-129),
applied to the workflow result dictionary: when the key
`'guardrail_override'` is present the status is set to 500 and the body is
built reading `workflow_result['response']`,
`workflow_result['recent_news_summary_result']` and — crucially —
`workflow_result['guardrails_override']`; otherwise the default 200 status
is kept and the body carries no override. -/
def generate_strategy_shape (wr : List (String × StateVal)) :
    Except PyErr (ℕ × ServiceResponse) :=
  if (List.lookup "guardrail_override" wr).isSome then do
    let respV ← pyDictGet wr "response"
    let resp ← asInvestmentResponse respV
    let sumV ← pyDictGet wr "recent_news_summary_result"
    let summ ← asSummaryResponse sumV
    let ovV ← pyDictGet wr "guardrails_override"
    let ov ← asOverride ovV
    pure (500, { suggested_action := resp.suggested_action,
                 reasoning := resp.reasoning,
                 sources := some summ.sources,
                 guardrail_override := some ov })
  else do
    let respV ← pyDictGet wr "response"
    let resp ← asInvestmentResponse respV
    let sumV ← pyDictGet wr "recent_news_summary_result"
    let summ ← asSummaryResponse sumV
    pure (200, { suggested_action := resp.suggested_action,
                 reasoning := resp.reasoning,
                 sources := some summ.sources,
                 guardrail_override := none })

/-! ## The task-graph executor
(`workflow_agent.py`, `WorkflowAgent.__init__` lines 119-132 and `ainvoke`) -/

/-- The five nodes registered with `graph_builder.add_node` (lines 121-125). -/
inductive GNode where
  | recent_news
  | web_search_results_summarization
  | get_overview_indicators
  | investment_suggestion
  | risk_appetite_beta_guardrail
deriving DecidableEq, Repr, Fintype

/-- The predecessor lists induced by the `add_edge` calls (lines 126-131):
`START → recent_news`, `START → get_overview_indicators`,
`recent_news → web_search_results_summarization`,
`[web_search_results_summarization, get_overview_indicators] → investment_suggestion`,
`investment_suggestion → risk_appetite_beta_guardrail`. -/
def preds : GNode → List GNode
  | .recent_news => []
  | .get_overview_indicators => []
  | .web_search_results_summarization => [.recent_news]
  | .investment_suggestion => [.web_search_results_summarization, .get_overview_indicators]
  | .risk_appetite_beta_guardrail => [.investment_suggestion]

/-- A topological order of the graph's nodes, compatible with `preds`. -/
def topo_order : List GNode :=
  [.recent_news, .get_overview_indicators, .web_search_results_summarization,
   .investment_suggestion, .risk_appetite_beta_guardrail]

/-- What happened to one node during a run. -/
inductive NodeOutcome (ε : Type) where
  | ran
  | failed (e : ε)
  | skipped
deriving Repr

/-- Did the node execute (successfully or not)?  A skipped node's body was
never entered. -/
def NodeOutcome.attempted {ε : Type} : NodeOutcome ε → Bool
  | .ran => true
  | .failed _ => true
  | .skipped => false

/-- Did the node fail? -/
def NodeOutcome.isFailed {ε : Type} : NodeOutcome ε → Bool
  | .failed _ => true
  | _ => false

/-- The outcome recorded for a node in the per-run outcome list. -/
def outcomeLookup {ε : Type} (outs : List (GNode × NodeOutcome ε))
    (n : GNode) : Option (NodeOutcome ε) :=
  match outs with
  | [] => none
  | (m, o) :: rest => if n = m then some o else outcomeLookup rest n

/-- Did every predecessor complete successfully? -/
def predsRan {ε : Type} (outs : List (GNode × NodeOutcome ε)) (n : GNode) : Bool :=
  (preds n).all (fun p =>
    match outcomeLookup outs p with
    | some .ran => true
    | _ => false)

/-- Modelled from the spec: the task-graph runtime (langgraph's `StateGraph`
executor driven by `ainvoke`, lines 134-144) is an external library, not code
of this repository; §4.2 specifies its semantics — a node runs only after all
of its declared predecessors completed successfully, a failed node's error
fails the whole run (fail-fast, the first failure is propagated), and no node
downstream of a failure runs, while the independent branch may still run.
`runNode` gives each node's behaviour on the current state. -/
def runGraph {σ ε : Type} (runNode : GNode → σ → Except ε σ) (s0 : σ) :
    List (GNode × NodeOutcome ε) × Except ε σ :=
  let step := fun (acc : List (GNode × NodeOutcome ε) × σ) (n : GNode) =>
    let (outs, s) := acc
    if predsRan outs n then
      match runNode n s with
      | .ok s2 => (outs ++ [(n, NodeOutcome.ran)], s2)
      | .error e => (outs ++ [(n, NodeOutcome.failed e)], s)
    else
      (outs ++ [(n, NodeOutcome.skipped)], s)
  let final := topo_order.foldl step ([], s0)
  let firstFailure := final.1.findSome? (fun p =>
    match p.2 with
    | NodeOutcome.failed e => some e
    | _ => none)
  (final.1,
    match firstFailure with
    | some e => .error e
    | none => .ok final.2)

/-- The outcome recorded for node `n` by a run. -/
def outcomeOf {ε : Type} (outs : List (GNode × NodeOutcome ε)) (n : GNode) :
    Option (NodeOutcome ε) :=
  outcomeLookup outs n

/-- Is the outcome recorded for node `n` a failure? -/
def failedAt {ε : Type} (outs : List (GNode × NodeOutcome ε)) (n : GNode) : Bool :=
  match outcomeLookup outs n with
  | some o => o.isFailed
  | none => false

/-- The transitive predecessors of each node under `preds`: `m` is
downstream of `n` exactly when `n ∈ transPreds m`. -/
def transPreds : GNode → List GNode
  | .recent_news => []
  | .get_overview_indicators => []
  | .web_search_results_summarization => [.recent_news]
  | .investment_suggestion =>
      [.web_search_results_summarization, .recent_news, .get_overview_indicators]
  | .risk_appetite_beta_guardrail =>
      [.investment_suggestion, .web_search_results_summarization,
       .recent_news, .get_overview_indicators]

/-! ## Helper lemmas about the cache store -/

/-- The primary keys of the live rows. -/
def storeKeys {α : Type} (store : CacheStore α) : List String :=
  store.map (fun row => row.1)

theorem lookup_filter_ne {α : Type} (k : String) :
    ∀ l : List (String × α),
      List.lookup k (l.filter (fun row => row.1 ≠ k)) = none := by
  intro l
  induction l with
  | nil => rfl
  | cons h t ih =>
    by_cases hk : h.1 = k
    · simpa [List.filter, hk] using ih
    · have hne : (k == h.1) = false := beq_eq_false_iff_ne.mpr (Ne.symm hk)
      simpa [List.filter, hk, List.lookup, hne] using ih

theorem lookup_set {α : Type} (store : CacheStore α) (k1 k2 : String) (p : α)
    (t : ℚ) (hk : (pyUpper k1) = (pyUpper k2)) :
    List.lookup (pyUpper k2) (OverviewCache.set store k1 p t) = some (p, t) := by
  simp [OverviewCache.set, hk, List.lookup]

theorem get_after_set_fresh {α : Type} (store : CacheStore α) (k1 k2 : String)
    (p : α) (ttl t_set t_get : ℚ) (hk : (pyUpper k1) = (pyUpper k2))
    (h : t_get - t_set ≤ ttl) :
    (OverviewCache.get (OverviewCache.set store k1 p t_set) ttl t_get k2).1
      = some p := by
  simp [OverviewCache.get, lookup_set store k1 k2 p t_set hk, not_lt.mpr h]

theorem get_after_set_expired {α : Type} (store : CacheStore α) (k1 k2 : String)
    (p : α) (ttl t_set t_get : ℚ) (hk : (pyUpper k1) = (pyUpper k2))
    (h : t_get - t_set > ttl) :
    (OverviewCache.get (OverviewCache.set store k1 p t_set) ttl t_get k2).1
      = none ∧
    List.lookup (pyUpper k2)
      (OverviewCache.get (OverviewCache.set store k1 p t_set) ttl t_get k2).2
      = none := by
  constructor
  · simp [OverviewCache.get, lookup_set store k1 k2 p t_set hk, h]
  · simp only [OverviewCache.get, lookup_set store k1 k2 p t_set hk, if_pos h]
    exact lookup_filter_ne (pyUpper k2) _

theorem filter_eq_filter_ne_nil {α : Type} (k : String) (l : List (String × α)) :
    (l.filter (fun row => row.1 ≠ k)).filter (fun row => row.1 = k) = [] := by
  induction l with
  | nil => rfl
  | cons h t ih => by_cases hk : h.1 = k <;> simp [List.filter, hk, ih]

theorem countKey_set {α : Type} (store : CacheStore α) (k : String) (p : α)
    (t : ℚ) :
    OverviewCache.countKey (OverviewCache.set store k p t) (pyUpper k) = 1 := by
  simp [OverviewCache.countKey, OverviewCache.set, List.filter,
    filter_eq_filter_ne_nil]

theorem storeKeys_set_nodup {α : Type} (store : CacheStore α) (k : String)
    (p : α) (t : ℚ) (h : (storeKeys store).Nodup) :
    (storeKeys (OverviewCache.set store k p t)).Nodup := by
  unfold storeKeys OverviewCache.set
  rw [List.map_cons, List.nodup_cons]
  refine ⟨?_, ?_⟩
  · intro hmem
    rcases List.mem_map.mp hmem with ⟨row, hrow, hfst⟩
    have hne := List.of_mem_filter hrow
    simp [hfst] at hne
  · exact List.Nodup.sublist (List.Sublist.map _ (List.filter_sublist _)) h

/-! ## Claim theorems about the TTL cache -/

/-- C5: for every key and payload, `cache.get` after `cache.set` returns
exactly the payload that was written as long as the time since the write does
not exceed the TTL (7 days by default); once the age strictly exceeds the
TTL, `cache.get` returns absent and, as a side effect, the stored entry is
deleted from the store. -/
theorem cache_ttl_roundtrip {α : Type} (store : CacheStore α) (k : String)
    (p : α) (ttl t_set t_get : ℚ) :
    (t_get - t_set ≤ ttl →
        (OverviewCache.get (OverviewCache.set store k p t_set) ttl t_get k).1
          = some p) ∧
    (t_get - t_set > ttl →
        (OverviewCache.get (OverviewCache.set store k p t_set) ttl t_get k).1
          = none ∧
        List.lookup (pyUpper k)
          (OverviewCache.get (OverviewCache.set store k p t_set) ttl t_get k).2
          = none) ∧
    OverviewCache.default_ttl_days = 7 :=
  ⟨get_after_set_fresh store k k p ttl t_set t_get rfl,
   get_after_set_expired store k k p ttl t_set t_get rfl, rfl⟩

/-- Witness for C5 at `key = "AAPL"`, payload `42`, write at day `0`,
reads at days `3` (fresh) and `8` (expired), TTL 7 days. -/
theorem cache_ttl_roundtrip_witness :
    ((OverviewCache.get (OverviewCache.set ([] : CacheStore ℕ) "AAPL" 42 0)
        7 3 "AAPL").1 = some 42) ∧
    ((OverviewCache.get (OverviewCache.set ([] : CacheStore ℕ) "AAPL" 42 0)
        7 8 "AAPL").1 = none ∧
      List.lookup (pyUpper "AAPL")
        (OverviewCache.get (OverviewCache.set ([] : CacheStore ℕ) "AAPL" 42 0)
          7 8 "AAPL").2 = none) :=
  ⟨(cache_ttl_roundtrip [] "AAPL" 42 7 0 3).1 (by norm_num),
   (cache_ttl_roundtrip [] "AAPL" 42 7 0 8).2.1 (by norm_num)⟩

/-- C6: cache keys are case-insensitive: for two keys that agree up to letter
case, a `set` under one followed by a fresh `get` under the other returns the
payload, because every cache operation (`get`, `set`, the key-wise `clear`)
upper-cases its key before acting. -/
theorem cache_keys_case_insensitive {α : Type} (store : CacheStore α) (p : α)
    (k1 k2 : String) (ttl t_set t_get : ℚ) (hk : (pyUpper k1) = (pyUpper k2))
    (hfresh : t_get - t_set ≤ ttl) :
    (OverviewCache.get (OverviewCache.set store k1 p t_set) ttl t_get k2).1
      = some p ∧
    (∀ now, OverviewCache.get store ttl now k1
      = OverviewCache.get store ttl now k2) ∧
    (∀ d now, OverviewCache.set store k1 d now
      = OverviewCache.set store k2 d now) ∧
    OverviewCache.clear store (some k1) = OverviewCache.clear store (some k2) := by
  refine ⟨get_after_set_fresh store k1 k2 p ttl t_set t_get hk hfresh, ?_, ?_, ?_⟩
  · intro now; simp only [OverviewCache.get, hk]
  · intro d now; simp only [OverviewCache.set, hk]
  · simp only [OverviewCache.clear, hk]

/-- Witness for C6: `set("aapl", 42)` then `get("AAPL")` within the TTL. -/
theorem cache_keys_case_insensitive_witness :
    (OverviewCache.get (OverviewCache.set ([] : CacheStore ℕ) "aapl" 42 0)
      7 3 "AAPL").1 = some 42 :=
  (cache_keys_case_insensitive [] 42 "aapl" "AAPL" 7 0 3 (by decide)
    (by norm_num)).1

/-- C7: `cache.set` has upsert (last-write-wins) semantics: writing twice
under keys that agree up to letter case leaves exactly one live row for the
normalized key, holding the later payload, and a store whose primary keys
were duplicate-free stays duplicate-free. -/
theorem cache_set_upsert {α : Type} (store : CacheStore α) (k1 k2 : String)
    (p1 p2 : α) (t1 t2 : ℚ) (hk : (pyUpper k1) = (pyUpper k2))
    (hnd : (storeKeys store).Nodup) :
    OverviewCache.countKey
      (OverviewCache.set (OverviewCache.set store k1 p1 t1) k2 p2 t2)
      (pyUpper k2) = 1 ∧
    List.lookup (pyUpper k2)
      (OverviewCache.set (OverviewCache.set store k1 p1 t1) k2 p2 t2)
      = some (p2, t2) ∧
    (storeKeys
      (OverviewCache.set (OverviewCache.set store k1 p1 t1) k2 p2 t2)).Nodup := by
  refine ⟨countKey_set _ k2 p2 t2, lookup_set _ k2 k2 p2 t2 rfl, ?_⟩
  exact storeKeys_set_nodup _ k2 p2 t2 (storeKeys_set_nodup store k1 p1 t1 hnd)

/-- Witness for C7: `set("aapl", 1)` then `set("AAPL", 2)` on the empty
store. -/
theorem cache_set_upsert_witness :
    OverviewCache.countKey
      (OverviewCache.set (OverviewCache.set ([] : CacheStore ℕ) "aapl" 1 0)
        "AAPL" 2 1) (pyUpper "AAPL") = 1 ∧
    List.lookup (pyUpper "AAPL")
      (OverviewCache.set (OverviewCache.set ([] : CacheStore ℕ) "aapl" 1 0)
        "AAPL" 2 1) = some (2, 1) ∧
    (storeKeys
      (OverviewCache.set (OverviewCache.set ([] : CacheStore ℕ) "aapl" 1 0)
        "AAPL" 2 1)).Nodup :=
  cache_set_upsert [] "aapl" "AAPL" 1 2 0 1 (by decide) (by decide)

/-! ## Claim theorems about the guardrail -/

/-- A fundamentals record with the given beta and no other numeric data. -/
def sampleOverview (beta : Option ℚ) : Overview :=
  { description := "d", market_capitalization := none, pe_ratio := none,
    peg_ratio := none, book_value := none, dividend_yield := none,
    dividend_per_share := none, eps := none, beta := beta,
    sector := "s", industry := "i" }

theorem except_pure_eq_ok {ε α : Type} (a : α) : (pure a : Except ε α) = .ok a := rfl

theorem guardrail_failed_iff (a : Action) (r : RiskAppetite) (beta : Option ℚ) :
    guardrail_failed a r beta = true ↔
      (a = Action.BUY ∧ r = RiskAppetite.LOW ∧ ∃ b, beta = some b ∧ b > 1) := by
  cases beta with
  | none => simp [guardrail_failed]
  | some b =>
    simp only [guardrail_failed, Bool.and_eq_true, decide_eq_true_eq,
      List.mem_singleton, Option.some.injEq]
    constructor
    · rintro ⟨⟨ha, hr⟩, hb0, hb1⟩
      exact ⟨ha, hr, b, rfl, hb1⟩
    · rintro ⟨ha, hr, b2, hb2, hgt⟩
      cases hb2
      exact ⟨⟨ha, hr⟩, ne_of_gt (lt_trans zero_lt_one hgt), hgt⟩

theorem guardrail_node_eq (audit : Except PyErr Unit)
    (response : InvestmentResponse) (risk : RiskAppetite)
    (overview : Overview) :
    risk_appetite_beta_guardrail audit response risk overview =
      .ok (if guardrail_failed response.suggested_action risk overview.beta
           then some ⟨Action.NOT_BUY, failure_reason⟩ else none) := by
  by_cases h : guardrail_failed response.suggested_action risk overview.beta <;>
    simp [risk_appetite_beta_guardrail, h]

/-- C1 counterexample: at `action = Buy, risk = Low, beta = 1.5` the
guardrail triggers and overrides to `NOT_BUY`, but the override reason is
the source's `"High beta stock not suitable for low risk appetite"`, not the
claimed `"high-beta stock unsuitable for low risk appetite"`. -/
theorem guardrail_reason_counterexample :
    risk_appetite_beta_guardrail (.ok ()) ⟨Action.BUY, "r"⟩ RiskAppetite.LOW
        (sampleOverview (some (3 / 2)))
      = .ok (some ⟨Action.NOT_BUY, failure_reason⟩) ∧
    failure_reason ≠ "high-beta stock unsuitable for low risk appetite" := by
  refine ⟨?_, by decide⟩
  rw [guardrail_node_eq]
  have h : guardrail_failed Action.BUY RiskAppetite.LOW (some (3 / 2)) = true := by
    simp only [guardrail_failed]
    norm_num
  simp [sampleOverview, h]

/-- C1 (amended): the guardrail triggers iff the recommended action is Buy,
the risk appetite is Low, beta is present and beta > 1.0; when it triggers
the patch is the override `{NOT_BUY, "High beta stock not suitable for low
risk appetite"}` and the effective action is the override's `NOT_BUY`;
otherwise the patch is empty and the effective action equals the
recommendation's action. -/
theorem guardrail_rule (audit : Except PyErr Unit)
    (response : InvestmentResponse) (risk : RiskAppetite)
    (overview : Overview) :
    (guardrail_failed response.suggested_action risk overview.beta = true ↔
      (response.suggested_action = Action.BUY ∧ risk = RiskAppetite.LOW ∧
        ∃ b, overview.beta = some b ∧ b > 1)) ∧
    risk_appetite_beta_guardrail audit response risk overview =
      .ok (if guardrail_failed response.suggested_action risk overview.beta
           then some ⟨Action.NOT_BUY, failure_reason⟩ else none) ∧
    (∀ ov, effective_action response (some ov) = ov.suggested_action) ∧
    effective_action response none = response.suggested_action :=
  ⟨guardrail_failed_iff response.suggested_action risk overview.beta,
   guardrail_node_eq audit response risk overview,
   fun _ => rfl, rfl⟩

/-- C9: for every outcome of the audit-record write (the `create_guardrails`
call wrapped in `try/except`), the guardrail node returns `.ok` with its
normal patch — the override when the rule fires, the empty patch otherwise —
so a failure of the observability sink can neither fail the node nor change
the effective action. -/
theorem guardrail_audit_exception_swallowed (audit : Except PyErr Unit)
    (response : InvestmentResponse) (risk : RiskAppetite)
    (overview : Overview) :
    risk_appetite_beta_guardrail audit response risk overview =
      .ok (if guardrail_failed response.suggested_action risk overview.beta
           then some ⟨Action.NOT_BUY, failure_reason⟩ else none) ∧
    risk_appetite_beta_guardrail audit response risk overview =
      risk_appetite_beta_guardrail (.ok ()) response risk overview := by
  rw [guardrail_node_eq, guardrail_node_eq]
  exact ⟨rfl, rfl⟩

/-! ## Claim theorems about the fundamentals-fetch node -/

/-- A fundamentals payload carrying every overview key except `PERatio`,
with all three required descriptive fields present. -/
def payloadMissingPERatio : Json :=
  .obj [("Description", .str "The Coca-Cola Company"),
        ("MarketCapitalization", .str "100000"),
        ("PEGRatio", .str "2.5"), ("BookValue", .str "10"),
        ("DividendYield", .str "0.03"), ("DividendPerShare", .str "1.8"),
        ("EPS", .str "2.2"), ("Beta", .str "0.6"),
        ("Sector", .str "Consumer Staples"), ("Industry", .str "Beverages")]

/-- C3 counterexample: a payload with all three descriptive fields but no
`"PERatio"` key makes the fundamentals node fail with `KeyError("PERatio")`
even though the provider call succeeded, so the node does not fail only on
provider failure or a missing descriptive field. -/
theorem overview_missing_numeric_key_counterexample :
    (get_overview_indicators [] 7 0 "KO" (.ok payloadMissingPERatio)).1
      = .error (.keyError "PERatio") ∧
    payloadMissingPERatio.lookup "Description"
      = some (.str "The Coca-Cola Company") ∧
    payloadMissingPERatio.lookup "Sector" = some (.str "Consumer Staples") ∧
    payloadMissingPERatio.lookup "Industry" = some (.str "Beverages") :=
  ⟨rfl, rfl, rfl, rfl⟩

/-- C3 (amended): whenever the payload carries all eleven overview keys and
its `Description`, `Sector` and `Industry` values are strings, the parse
succeeds: each numeric field goes through `maybe_float_from_str`, which maps
JSON `null`, the literal string `"None"` and non-numeric text to an absent
field instead of failing, and maps numeric text to its value. -/
theorem overview_numeric_leniency (response : Json) (d sec ind : String)
    (mc pe peg bv dy dps epsv betav : Json)
    (hd : response.lookup "Description" = some (.str d))
    (hmc : response.lookup "MarketCapitalization" = some mc)
    (hpe : response.lookup "PERatio" = some pe)
    (hpeg : response.lookup "PEGRatio" = some peg)
    (hbv : response.lookup "BookValue" = some bv)
    (hdy : response.lookup "DividendYield" = some dy)
    (hdps : response.lookup "DividendPerShare" = some dps)
    (heps : response.lookup "EPS" = some epsv)
    (hbeta : response.lookup "Beta" = some betav)
    (hsec : response.lookup "Sector" = some (.str sec))
    (hind : response.lookup "Industry" = some (.str ind)) :
    parseOverview response = .ok
      { description := d,
        market_capitalization := maybe_float_from_str mc,
        pe_ratio := maybe_float_from_str pe,
        peg_ratio := maybe_float_from_str peg,
        book_value := maybe_float_from_str bv,
        dividend_yield := maybe_float_from_str dy,
        dividend_per_share := maybe_float_from_str dps,
        eps := maybe_float_from_str epsv,
        beta := maybe_float_from_str betav,
        sector := sec, industry := ind } ∧
    maybe_float_from_str Json.null = none ∧
    maybe_float_from_str (Json.str "None") = none ∧
    (∀ s, parseFloat s = none → maybe_float_from_str (Json.str s) = none) ∧
    (∀ s q, s ≠ "None" → parseFloat s = some q →
      maybe_float_from_str (Json.str s) = some q) := by
  refine ⟨?_, rfl, rfl, ?_, ?_⟩
  · simp only [parseOverview, dictGet, hd, hmc, hpe, hpeg, hbv, hdy, hdps,
      heps, hbeta, hsec, hind]
    rfl
  · intro s hs
    by_cases hnone : s = "None"
    · simp [maybe_float_from_str, Json.isNoneStr, hnone]
    · simp [maybe_float_from_str, Json.isNoneStr, hnone, pyFloat, hs]
  · intro s q hne hq
    simp [maybe_float_from_str, Json.isNoneStr, hne, pyFloat, hq]

/-- A payload exercising the lenient numeric conversions: non-numeric text,
the `"None"` sentinel, JSON `null`, and ordinary numeric text. -/
def payloadLenient : Json :=
  .obj [("Description", .str "KO"), ("MarketCapitalization", .str "abc"),
        ("PERatio", .str "None"), ("PEGRatio", Json.null),
        ("BookValue", .str "10.5"), ("DividendYield", .str "0.03"),
        ("DividendPerShare", .str "1.8"), ("EPS", .str "2.2"),
        ("Beta", .str "1.5"), ("Sector", .str "Consumer Staples"),
        ("Industry", .str "Beverages")]

/-- Witness for C3 on `payloadLenient`. -/
theorem overview_numeric_leniency_witness :
    parseOverview payloadLenient = .ok
      { description := "KO",
        market_capitalization := maybe_float_from_str (Json.str "abc"),
        pe_ratio := maybe_float_from_str (Json.str "None"),
        peg_ratio := maybe_float_from_str Json.null,
        book_value := maybe_float_from_str (Json.str "10.5"),
        dividend_yield := maybe_float_from_str (Json.str "0.03"),
        dividend_per_share := maybe_float_from_str (Json.str "1.8"),
        eps := maybe_float_from_str (Json.str "2.2"),
        beta := maybe_float_from_str (Json.str "1.5"),
        sector := "Consumer Staples", industry := "Beverages" } ∧
    maybe_float_from_str (Json.str "None") = none :=
  ⟨(overview_numeric_leniency payloadLenient "KO" "Consumer Staples"
      "Beverages" (Json.str "abc") (Json.str "None") Json.null
      (Json.str "10.5") (Json.str "0.03") (Json.str "1.8") (Json.str "2.2")
      (Json.str "1.5") rfl rfl rfl rfl rfl rfl rfl rfl rfl rfl rfl).1,
   (overview_numeric_leniency payloadLenient "KO" "Consumer Staples"
      "Beverages" (Json.str "abc") (Json.str "None") Json.null
      (Json.str "10.5") (Json.str "0.03") (Json.str "1.8") (Json.str "2.2")
      (Json.str "1.5") rfl rfl rfl rfl rfl rfl rfl rfl rfl rfl rfl).2.2.1⟩

/-- C10: in the fundamentals node, a cache hit whose payload is falsy (such
as the empty object) is treated exactly like a cache miss — the provider is
invoked and its fresh payload overwrites the cache entry — while a truthy
hit short-circuits the provider entirely. -/
theorem overview_cache_falsy_hit (store store2 : CacheStore Json)
    (ttl now : ℚ) (symbol : String) (v fresh : Json)
    (hhit : (OverviewCache.get store ttl now symbol).1 = some v)
    (hmiss : (OverviewCache.get store2 ttl now symbol).1 = none) :
    (v.truthy = false →
      get_overview_indicators store ttl now symbol (.ok fresh)
        = (parseOverview fresh,
            OverviewCache.set (OverviewCache.get store ttl now symbol).2
              symbol fresh now)) ∧
    (v.truthy = true →
      ∀ provider, get_overview_indicators store ttl now symbol provider
        = (parseOverview v, (OverviewCache.get store ttl now symbol).2)) ∧
    get_overview_indicators store2 ttl now symbol (.ok fresh)
      = (parseOverview fresh,
          OverviewCache.set (OverviewCache.get store2 ttl now symbol).2
            symbol fresh now) := by
  refine ⟨?_, ?_, ?_⟩
  · intro hf
    simp [get_overview_indicators, hhit, hf]
  · intro ht provider
    simp [get_overview_indicators, hhit, ht]
  · simp [get_overview_indicators, hmiss]

/-- Witness for C10: an entry holding the falsy `{}` written at day 0 and
read at day 0 (a live hit), against the fresh payload `payloadLenient`. -/
theorem overview_cache_falsy_hit_witness :
    (get_overview_indicators [("AAPL", Json.obj [], 0)] 7 0 "AAPL"
        (.ok payloadLenient)
      = (parseOverview payloadLenient,
          OverviewCache.set
            (OverviewCache.get [("AAPL", Json.obj [], 0)] 7 0 "AAPL").2
            "AAPL" payloadLenient 0)) ∧
    get_overview_indicators [] 7 0 "AAPL" (.ok payloadLenient)
      = (parseOverview payloadLenient,
          OverviewCache.set (OverviewCache.get [] 7 0 "AAPL").2
            "AAPL" payloadLenient 0) := by
  have hhit : (OverviewCache.get [("AAPL", Json.obj [], 0)] 7 0 "AAPL").1
      = some (Json.obj []) := by
    simp [OverviewCache.get, pyUpper, List.lookup]
    norm_num
  have h := overview_cache_falsy_hit [("AAPL", Json.obj [], 0)] [] 7 0 "AAPL"
    (Json.obj []) payloadLenient hhit rfl
  exact ⟨h.1 rfl, h.2.2⟩

/-! ## Claim theorems about the news-fetch node -/

/-- C8 counterexample: the search query issued for ticker `"AAPL"` is
`"Recent news about AAPL stock"` — with a capital R — not the claimed
`"recent news about AAPL stock"`. -/
theorem recent_news_query_counterexample :
    (recent_news (fun _ => []) "AAPL").1 = ["Recent news about AAPL stock"] ∧
    recent_news_query "AAPL" ≠ "recent news about AAPL stock" :=
  ⟨rfl, by decide⟩

/-- C8 (amended): for every provider behaviour and ticker, the news node
issues exactly one search query, `"Recent news about {ticker} stock"`, and
its output is the provider result list for that query capped at 10 items,
mapped in provider order into the `{title, url, content}` shape. -/
theorem recent_news_shape (provider : String → List TavilyResult)
    (ticker_symbol : String) :
    (recent_news provider ticker_symbol).1
      = ["Recent news about " ++ ticker_symbol ++ " stock"] ∧
    (recent_news provider ticker_symbol).2
      = ((provider (recent_news_query ticker_symbol)).take 10).map
          (fun r => { title := r.title, url := r.url, content := r.content }) ∧
    (recent_news provider ticker_symbol).2.length ≤ 10 := by
  refine ⟨rfl, rfl, ?_⟩
  simp only [recent_news, tavily_invoke, tavily_max_results,
    List.length_map, List.length_take]
  omega

/-! ## Claim theorems about the endpoint's override handling -/

/-- The recommendation produced by a triggered run. -/
def triggeredResponse : InvestmentResponse := ⟨Action.BUY, "momentum"⟩

/-- The news summary of that run. -/
def triggeredSummary : SummaryResponse := ⟨"summary", [⟨"t", "u"⟩]⟩

/-- The override the guardrail computes on that run. -/
def triggeredOverride : GuardrailOverride := ⟨Action.NOT_BUY, failure_reason⟩

/-- The workflow result of the triggered run when the graph state drops the
patch key absent from the `AdvisorState` schema. -/
def triggeredResultDropped : List (String × StateVal) :=
  [("response", .respV triggeredResponse),
   ("recent_news_summary_result", .summaryV triggeredSummary)]

/-- The workflow result of the triggered run on the hypothesis that the raw
patch key survives into the result dictionary. -/
def triggeredResultKept : List (String × StateVal) :=
  triggeredResultDropped ++ guardrail_patch (some triggeredOverride)

/-- C2 (code bug): on a triggered run the guardrail node patches the state
under the key `'guardrail_override'`, which the `AdvisorState` schema does
not declare (it declares `'guardrails_override'`), and the endpoint reads
`workflow_result['guardrails_override']`, which no node ever writes.  So the
endpoint cannot produce the claimed outcome: if the unknown patch key is
dropped by the graph state it answers 200 with the plain Buy recommendation
and no override payload, and if the key is kept the read raises
`KeyError('guardrails_override')`. -/
theorem generate_strategy_override_key_mismatch :
    risk_appetite_beta_guardrail (.ok ()) triggeredResponse RiskAppetite.LOW
        (sampleOverview (some (17 / 10))) = .ok (some triggeredOverride) ∧
    guardrail_patch (some triggeredOverride)
      = [("guardrail_override", StateVal.overrideV triggeredOverride)] ∧
    "guardrail_override" ∉ advisorStateKeys ∧
    "guardrails_override" ∈ advisorStateKeys ∧
    generate_strategy_shape triggeredResultDropped
      = .ok (200, { suggested_action := Action.BUY, reasoning := "momentum",
                    sources := some [⟨"t", "u"⟩],
                    guardrail_override := none }) ∧
    generate_strategy_shape triggeredResultKept
      = .error (.keyError "guardrails_override") := by
  refine ⟨?_, rfl, by decide, by decide, rfl, rfl⟩
  rw [guardrail_node_eq]
  have h : guardrail_failed Action.BUY RiskAppetite.LOW (some (17 / 10))
      = true := by
    simp only [guardrail_failed]
    norm_num
  simp [triggeredResponse, triggeredOverride, sampleOverview, h]

/-! ## Claim theorems about the task-graph executor -/

theorem transPreds_closed :
    ∀ m : GNode, (∀ p ∈ preds m, p ∈ transPreds m) ∧
      ∀ p ∈ preds m, ∀ q ∈ transPreds p, q ∈ transPreds m := by decide

/-- C4: in every run, no node downstream of a failed node executes (it is
recorded as skipped), a failure at any node makes the whole run fail (a run
that returns a final state had every node run — no partial result), and in
particular when the news-fetch node fails the summarization, recommendation
and guardrail nodes never execute and the run fails with the originating
error. -/
theorem graph_failfast {σ ε : Type} (runNode : GNode → σ → Except ε σ)
    (s0 : σ) :
    (∀ n m : GNode, failedAt (runGraph runNode s0).1 n = true →
      n ∈ transPreds m →
      outcomeOf (runGraph runNode s0).1 m = some NodeOutcome.skipped) ∧
    (∀ n : GNode, failedAt (runGraph runNode s0).1 n = true →
      ∃ e2 : ε, (runGraph runNode s0).2 = .error e2) ∧
    (∀ s : σ, (runGraph runNode s0).2 = .ok s →
      ∀ n : GNode, outcomeOf (runGraph runNode s0).1 n = some NodeOutcome.ran) ∧
    (∀ e : ε, runNode GNode.recent_news s0 = .error e →
      outcomeOf (runGraph runNode s0).1 GNode.web_search_results_summarization
        = some NodeOutcome.skipped ∧
      outcomeOf (runGraph runNode s0).1 GNode.investment_suggestion
        = some NodeOutcome.skipped ∧
      outcomeOf (runGraph runNode s0).1 GNode.risk_appetite_beta_guardrail
        = some NodeOutcome.skipped ∧
      (runGraph runNode s0).2 = .error e) := by
  cases h1 : runNode GNode.recent_news s0 with
  | error e1 =>
    cases h2 : runNode GNode.get_overview_indicators s0 with
    | ok s2 =>
      have hR : runGraph runNode s0 =
          ([(GNode.recent_news, NodeOutcome.failed e1),
            (GNode.get_overview_indicators, NodeOutcome.ran),
            (GNode.web_search_results_summarization, NodeOutcome.skipped),
            (GNode.investment_suggestion, NodeOutcome.skipped),
            (GNode.risk_appetite_beta_guardrail, NodeOutcome.skipped)],
           .error e1) := by
        simp [runGraph, topo_order, predsRan, preds, h1, h2, outcomeLookup]
      refine ⟨?_, ?_, ?_, ?_⟩
      · intro n m hn hm
        rw [hR] at hn ⊢
        fin_cases n <;> fin_cases m <;>
          simp_all [failedAt, outcomeOf, outcomeLookup, transPreds,
            NodeOutcome.isFailed]
      · intro n hn
        exact ⟨e1, by rw [hR]⟩
      · intro s hs
        rw [hR] at hs
        simp at hs
      · intro e he
        injection he with h
        subst h
        rw [hR]
        exact ⟨rfl, rfl, rfl, rfl⟩
    | error e2 =>
      have hR : runGraph runNode s0 =
          ([(GNode.recent_news, NodeOutcome.failed e1),
            (GNode.get_overview_indicators, NodeOutcome.failed e2),
            (GNode.web_search_results_summarization, NodeOutcome.skipped),
            (GNode.investment_suggestion, NodeOutcome.skipped),
            (GNode.risk_appetite_beta_guardrail, NodeOutcome.skipped)],
           .error e1) := by
        simp [runGraph, topo_order, predsRan, preds, h1, h2, outcomeLookup]
      refine ⟨?_, ?_, ?_, ?_⟩
      · intro n m hn hm
        rw [hR] at hn ⊢
        fin_cases n <;> fin_cases m <;>
          simp_all [failedAt, outcomeOf, outcomeLookup, transPreds,
            NodeOutcome.isFailed]
      · intro n hn
        exact ⟨e1, by rw [hR]⟩
      · intro s hs
        rw [hR] at hs
        simp at hs
      · intro e he
        injection he with h
        subst h
        rw [hR]
        exact ⟨rfl, rfl, rfl, rfl⟩
  | ok s1 =>
    cases h2 : runNode GNode.get_overview_indicators s1 with
    | error e2 =>
      cases h3 : runNode GNode.web_search_results_summarization s1 with
      | ok s3 =>
        have hR : runGraph runNode s0 =
            ([(GNode.recent_news, NodeOutcome.ran),
              (GNode.get_overview_indicators, NodeOutcome.failed e2),
              (GNode.web_search_results_summarization, NodeOutcome.ran),
              (GNode.investment_suggestion, NodeOutcome.skipped),
              (GNode.risk_appetite_beta_guardrail, NodeOutcome.skipped)],
             .error e2) := by
          simp [runGraph, topo_order, predsRan, preds, h1, h2, h3, outcomeLookup]
        refine ⟨?_, ?_, ?_, ?_⟩
        · intro n m hn hm
          rw [hR] at hn ⊢
          fin_cases n <;> fin_cases m <;>
            simp_all [failedAt, outcomeOf, outcomeLookup, transPreds,
              NodeOutcome.isFailed]
        · intro n hn
          exact ⟨e2, by rw [hR]⟩
        · intro s hs
          rw [hR] at hs
          simp at hs
        · intro e he
          simp at he
      | error e3 =>
        have hR : runGraph runNode s0 =
            ([(GNode.recent_news, NodeOutcome.ran),
              (GNode.get_overview_indicators, NodeOutcome.failed e2),
              (GNode.web_search_results_summarization, NodeOutcome.failed e3),
              (GNode.investment_suggestion, NodeOutcome.skipped),
              (GNode.risk_appetite_beta_guardrail, NodeOutcome.skipped)],
             .error e2) := by
          simp [runGraph, topo_order, predsRan, preds, h1, h2, h3, outcomeLookup]
        refine ⟨?_, ?_, ?_, ?_⟩
        · intro n m hn hm
          rw [hR] at hn ⊢
          fin_cases n <;> fin_cases m <;>
            simp_all [failedAt, outcomeOf, outcomeLookup, transPreds,
              NodeOutcome.isFailed]
        · intro n hn
          exact ⟨e2, by rw [hR]⟩
        · intro s hs
          rw [hR] at hs
          simp at hs
        · intro e he
          simp at he
    | ok s2 =>
      cases h3 : runNode GNode.web_search_results_summarization s2 with
      | error e3 =>
        have hR : runGraph runNode s0 =
            ([(GNode.recent_news, NodeOutcome.ran),
              (GNode.get_overview_indicators, NodeOutcome.ran),
              (GNode.web_search_results_summarization, NodeOutcome.failed e3),
              (GNode.investment_suggestion, NodeOutcome.skipped),
              (GNode.risk_appetite_beta_guardrail, NodeOutcome.skipped)],
             .error e3) := by
          simp [runGraph, topo_order, predsRan, preds, h1, h2, h3, outcomeLookup]
        refine ⟨?_, ?_, ?_, ?_⟩
        · intro n m hn hm
          rw [hR] at hn ⊢
          fin_cases n <;> fin_cases m <;>
            simp_all [failedAt, outcomeOf, outcomeLookup, transPreds,
              NodeOutcome.isFailed]
        · intro n hn
          exact ⟨e3, by rw [hR]⟩
        · intro s hs
          rw [hR] at hs
          simp at hs
        · intro e he
          simp at he
      | ok s3 =>
        cases h4 : runNode GNode.investment_suggestion s3 with
        | error e4 =>
          have hR : runGraph runNode s0 =
              ([(GNode.recent_news, NodeOutcome.ran),
                (GNode.get_overview_indicators, NodeOutcome.ran),
                (GNode.web_search_results_summarization, NodeOutcome.ran),
                (GNode.investment_suggestion, NodeOutcome.failed e4),
                (GNode.risk_appetite_beta_guardrail, NodeOutcome.skipped)],
               .error e4) := by
            simp [runGraph, topo_order, predsRan, preds, h1, h2, h3, h4,
              outcomeLookup]
          refine ⟨?_, ?_, ?_, ?_⟩
          · intro n m hn hm
            rw [hR] at hn ⊢
            fin_cases n <;> fin_cases m <;>
              simp_all [failedAt, outcomeOf, outcomeLookup, transPreds,
                NodeOutcome.isFailed]
          · intro n hn
            exact ⟨e4, by rw [hR]⟩
          · intro s hs
            rw [hR] at hs
            simp at hs
          · intro e he
            simp at he
        | ok s4 =>
          cases h5 : runNode GNode.risk_appetite_beta_guardrail s4 with
          | error e5 =>
            have hR : runGraph runNode s0 =
                ([(GNode.recent_news, NodeOutcome.ran),
                  (GNode.get_overview_indicators, NodeOutcome.ran),
                  (GNode.web_search_results_summarization, NodeOutcome.ran),
                  (GNode.investment_suggestion, NodeOutcome.ran),
                  (GNode.risk_appetite_beta_guardrail, NodeOutcome.failed e5)],
                 .error e5) := by
              simp [runGraph, topo_order, predsRan, preds, h1, h2, h3, h4, h5,
                outcomeLookup]
            refine ⟨?_, ?_, ?_, ?_⟩
            · intro n m hn hm
              rw [hR] at hn ⊢
              fin_cases n <;> fin_cases m <;>
                simp_all [failedAt, outcomeOf, outcomeLookup, transPreds,
                  NodeOutcome.isFailed]
            · intro n hn
              exact ⟨e5, by rw [hR]⟩
            · intro s hs
              rw [hR] at hs
              simp at hs
            · intro e he
              simp at he
          | ok s5 =>
            have hR : runGraph runNode s0 =
                ([(GNode.recent_news, NodeOutcome.ran),
                  (GNode.get_overview_indicators, NodeOutcome.ran),
                  (GNode.web_search_results_summarization, NodeOutcome.ran),
                  (GNode.investment_suggestion, NodeOutcome.ran),
                  (GNode.risk_appetite_beta_guardrail, NodeOutcome.ran)],
                 .ok s5) := by
              simp [runGraph, topo_order, predsRan, preds, h1, h2, h3, h4, h5,
                outcomeLookup]
            refine ⟨?_, ?_, ?_, ?_⟩
            · intro n m hn hm
              rw [hR] at hn
              fin_cases n <;>
                simp_all [failedAt, outcomeOf, outcomeLookup,
                  NodeOutcome.isFailed]
            · intro n hn
              rw [hR] at hn
              fin_cases n <;>
                simp_all [failedAt, outcomeOf, outcomeLookup,
                  NodeOutcome.isFailed]
            · intro s hs n
              rw [hR]
              fin_cases n <;> rfl
            · intro e he
              simp at he

/-- A node-behaviour function on which the news fetch fails and every other
node succeeds. -/
def failNewsRunner : GNode → ℕ → Except String ℕ :=
  fun n s => if n = GNode.recent_news then .error "provider down" else .ok (s + 1)

/-- Witness for C4 on `failNewsRunner`. -/
theorem graph_failfast_witness :
    outcomeOf (runGraph failNewsRunner 0).1
        GNode.web_search_results_summarization = some NodeOutcome.skipped ∧
    (∃ e2 : String, (runGraph failNewsRunner 0).2 = .error e2) ∧
    outcomeOf (runGraph failNewsRunner 0).1 GNode.investment_suggestion
      = some NodeOutcome.skipped ∧
    outcomeOf (runGraph failNewsRunner 0).1 GNode.risk_appetite_beta_guardrail
      = some NodeOutcome.skipped ∧
    (runGraph failNewsRunner 0).2 = .error "provider down" :=
  ⟨(graph_failfast failNewsRunner 0).1 GNode.recent_news
      GNode.web_search_results_summarization rfl (by decide),
   (graph_failfast failNewsRunner 0).2.1 GNode.recent_news rfl,
   ((graph_failfast failNewsRunner 0).2.2.2 "provider down" rfl).2.1,
   ((graph_failfast failNewsRunner 0).2.2.2 "provider down" rfl).2.2.1,
   ((graph_failfast failNewsRunner 0).2.2.2 "provider down" rfl).2.2.2⟩

end App
